import Mathlib

/-!
Verification of the DigitalOcean example function handler
(src/examples/do-function/example-python-function/main.py).

The handler is a single Python function `main(args)` over a JSON-like
parameter mapping.  We embed the JSON-like value universe as `PyVal`,
Python dictionary lookup with default (`dict.get`) as `dget`, attribute
access `.get` on an arbitrary value (which raises AttributeError on
non-dict values) as `pyGet`, and the handler itself as `main`, which is
parameterized by the timestamp string that `datetime.now().isoformat()`
would produce, since that is the only nondeterministic input.
-/

namespace Handler

/-- A JSON-like Python value: the universe of values the platform can
pass in the invocation-parameter mapping and that the handler builds. -/
inductive PyVal where
  | str (s : String)
  | int (n : Int)
  | bool (b : Bool)
  | none
  | list (xs : List PyVal)
  | dict (entries : List (String × PyVal))

/-- The Python type name of a value, as it appears in error messages. -/
def pyType : PyVal → String
  | .str _ => "str"
  | .int _ => "int"
  | .bool _ => "bool"
  | .none => "NoneType"
  | .list _ => "list"
  | .dict _ => "dict"

mutual

/-- Python repr of a JSON-like value (string escaping inside reprs is
not modelled beyond quoting, which no claim depends on). -/
def pyRepr : PyVal → String
  | .str s => "\x27" ++ s ++ "\x27"
  | .int n => toString n
  | .bool b => if b then "True" else "False"
  | .none => "None"
  | .list xs => "[" ++ String.intercalate ", " (pyReprList xs) ++ "]"
  | .dict d => "\x7b" ++ String.intercalate ", " (pyReprDict d) ++ "\x7d"

/-- reprs of the elements of a Python list. -/
def pyReprList : List PyVal → List String
  | [] => []
  | v :: vs => pyRepr v :: pyReprList vs

/-- reprs of the entries of a Python dict. -/
def pyReprDict : List (String × PyVal) → List String
  | [] => []
  | (k, v) :: d => (pyRepr (.str k) ++ ": " ++ pyRepr v) :: pyReprDict d

end

/-- Python str() of a JSON-like value, as used by f-string interpolation:
a string interpolates as itself, every other value as its repr. -/
def pyStr : PyVal → String
  | .str s => s
  | v => pyRepr v

/-- Python dict.get(key, default): the value at the key if present,
otherwise the default.  Invocation parameter dicts have unique keys, so
first-match lookup is exact. -/
def dget (d : List (String × PyVal)) (k : String) (dflt : PyVal) : PyVal :=
  (d.lookup k).getD dflt

/-- A Python exception surfaced by the handler. -/
inductive PyErr where
  | attributeError (typeName : String) (attr : String)

/-- Attribute access v.get(key, default) on an arbitrary value: only a
dict has a get method; on any other value Python raises AttributeError. -/
def pyGet (v : PyVal) (k : String) (dflt : PyVal) : Except PyErr PyVal :=
  match v with
  | .dict d => .ok (dget d k dflt)
  | v => .error (.attributeError (pyType v) "get")

/-- Python equality between a value and a string literal: among the
JSON-like values only an equal string compares equal to a str. -/
def pyEqStr (v : PyVal) (s : String) : Bool :=
  match v with
  | .str t => t == s
  | _ => false

/-- The record the handler returns to the platform. -/
structure InvocationResult where
  statusCode : Nat
  headers : List (String × String)
  body : PyVal

/-- The header mapping built identically in all three branches. -/
def jsonHeaders : List (String × String) :=
  [("Content-Type", "application/json"), ("Access-Control-Allow-Origin", "*")]

/-- Line 10: name = args.get(\x27name\x27, args.get(\x27query\x27, \x7b\x7d).get(\x27name\x27, \x27World\x27)).
Python evaluates the default argument eagerly, so the inner .get runs
(and can raise) before the outer lookup consults the name key. -/
def resolveName (args : List (String × PyVal)) : Except PyErr PyVal :=
  match pyGet (dget args "query" (.dict [])) "name" (.str "World") with
  | .error e => .error e
  | .ok fb => .ok (dget args "name" fb)

/-- Line 11: method = args.get with key __ow_method, default GET. -/
def resolveMethod (args : List (String × PyVal)) : PyVal :=
  dget args "__ow_method" (.str "GET")

/-- Line 12: path = args.get with key __ow_path, default /. -/
def resolvePath (args : List (String × PyVal)) : PyVal :=
  dget args "__ow_path" (.str "/")

/-- The handler main(args).  The two print calls are side effects with
no bearing on the returned value and are not modelled.  now stands for
the string datetime.now().isoformat() returns during the call. -/
def main (now : String) (args : List (String × PyVal)) :
    Except PyErr InvocationResult :=
  match resolveName args with
  | .error e => .error e
  | .ok name =>
    if pyEqStr (resolveMethod args) "GET" then
      .ok ⟨200, jsonHeaders,
        .dict [("message", .str ("Hello, " ++ pyStr name ++ "!")),
               ("timestamp", .str now),
               ("method", resolveMethod args),
               ("path", resolvePath args),
               ("language", .str "Python")]⟩
    else if pyEqStr (resolveMethod args) "POST" then
      .ok ⟨200, jsonHeaders,
        .dict [("message", .str "Data received successfully"),
               ("receivedData", dget args "body" (.dict args)),
               ("timestamp", .str now)]⟩
    else
      .ok ⟨405, jsonHeaders,
        .dict [("error", .str ("Method " ++ pyStr (resolveMethod args) ++ " not allowed")),
               ("allowedMethods", .list [.str "GET", .str "POST"])]⟩

/-- Lookup of a key in a result body when the body is a dict. -/
def bodyLookup (r : InvocationResult) (k : String) : Option PyVal :=
  match r.body with
  | .dict d => d.lookup k
  | _ => Option.none

/-- The inputs on which line 10 does not raise: the query key is either
absent or bound to a dict, so the eager inner .get call succeeds. -/
def queryOK (args : List (String × PyVal)) : Prop :=
  args.lookup "query" = Option.none ∨ ∃ q, args.lookup "query" = some (.dict q)

/-- The 405 result built by the final branch, as a function of the
resolved method value. -/
def result405 (m : PyVal) : InvocationResult :=
  ⟨405, jsonHeaders,
    .dict [("error", .str ("Method " ++ pyStr m ++ " not allowed")),
           ("allowedMethods", .list [.str "GET", .str "POST"])]⟩

lemma resolveName_query_none {args : List (String × PyVal)}
    (hq : args.lookup "query" = Option.none) :
    resolveName args = .ok (dget args "name" (.str "World")) := by
  simp [resolveName, dget, hq, pyGet]

lemma resolveName_query_dict {args : List (String × PyVal)} {q : List (String × PyVal)}
    (hq : args.lookup "query" = some (.dict q)) :
    resolveName args = .ok (dget args "name" (dget q "name" (.str "World"))) := by
  simp [resolveName, dget, hq, pyGet]

lemma resolveName_ok {args : List (String × PyVal)} (h : queryOK args) :
    ∃ v, resolveName args = .ok v := by
  rcases h with hq | ⟨q, hq⟩
  · exact ⟨_, resolveName_query_none hq⟩
  · exact ⟨_, resolveName_query_dict hq⟩

lemma pyEqStr_true_iff (v : PyVal) (s : String) : pyEqStr v s = true ↔ v = .str s := by
  cases v <;> simp [pyEqStr]

lemma main_ok_GET {now : String} {args : List (String × PyVal)} {v : PyVal}
    (hn : resolveName args = .ok v) (hm : resolveMethod args = .str "GET") :
    main now args = .ok ⟨200, jsonHeaders,
      .dict [("message", .str ("Hello, " ++ pyStr v ++ "!")),
             ("timestamp", .str now),
             ("method", resolveMethod args),
             ("path", resolvePath args),
             ("language", .str "Python")]⟩ := by
  simp [main, hn, hm, pyEqStr]

lemma main_ok_POST {now : String} {args : List (String × PyVal)} {v : PyVal}
    (hn : resolveName args = .ok v) (hm : resolveMethod args = .str "POST") :
    main now args = .ok ⟨200, jsonHeaders,
      .dict [("message", .str "Data received successfully"),
             ("receivedData", dget args "body" (.dict args)),
             ("timestamp", .str now)]⟩ := by
  simp [main, hn, hm, pyEqStr]

lemma main_ok_else {now : String} {args : List (String × PyVal)} {v m : PyVal}
    (hn : resolveName args = .ok v) (hm : resolveMethod args = m)
    (hg : m ≠ .str "GET") (hp : m ≠ .str "POST") :
    main now args = .ok (result405 m) := by
  have hg2 : pyEqStr m "GET" = false := by
    cases hb : pyEqStr m "GET"
    · rfl
    · exact absurd ((pyEqStr_true_iff m "GET").mp hb) hg
  have hp2 : pyEqStr m "POST" = false := by
    cases hb : pyEqStr m "POST"
    · rfl
    · exact absurd ((pyEqStr_true_iff m "POST").mp hb) hp
  simp [main, hn, hm, hg2, hp2, result405]

lemma main_error {now : String} {args : List (String × PyVal)} {e : PyErr}
    (hn : resolveName args = .error e) : main now args = .error e := by
  simp [main, hn]

lemma main_ok_name {now : String} {args : List (String × PyVal)} {r : InvocationResult}
    (h : main now args = .ok r) : ∃ v, resolveName args = .ok v := by
  cases hn : resolveName args with
  | error e => rw [main_error hn] at h; exact absurd h (by simp)
  | ok v => exact ⟨v, rfl⟩

/-- C1 counterexample: the claim says that when the name key is present
its value is the resolved name regardless of what the query key
contains, but with query bound to the string value x the handler raises
AttributeError before the name key can win, so there is no resolved
name at all. -/
theorem name_resolution_precedence_cex :
    resolveName [("name", PyVal.str "Ada"), ("query", PyVal.str "x")]
      = .error (.attributeError "str" "get") := rfl

/-- C1 (amended): provided the query key, when present, is bound to a
mapping, the precedence holds: a present name key wins; otherwise a
name entry nested under query is used; otherwise the resolved name is
the literal World. -/
theorem name_resolution_precedence (args : List (String × PyVal)) (h : queryOK args) :
    (∀ v, args.lookup "name" = some v → resolveName args = .ok v) ∧
    (args.lookup "name" = Option.none →
      ∀ q w, args.lookup "query" = some (PyVal.dict q) → q.lookup "name" = some w →
        resolveName args = .ok w) ∧
    (args.lookup "name" = Option.none →
      (args.lookup "query" = Option.none ∨
        ∃ q, args.lookup "query" = some (PyVal.dict q) ∧ q.lookup "name" = Option.none) →
      resolveName args = .ok (.str "World")) := by
  refine ⟨?_, ?_, ?_⟩
  · intro v hv
    rcases h with hq | ⟨q, hq⟩
    · rw [resolveName_query_none hq]; simp [dget, hv]
    · rw [resolveName_query_dict hq]; simp [dget, hv]
  · intro hv q w hq hw
    rw [resolveName_query_dict hq]; simp [dget, hv, hw]
  · intro hv hcase
    rcases hcase with hq | ⟨q, hq, hw⟩
    · rw [resolveName_query_none hq]; simp [dget, hv]
    · rw [resolveName_query_dict hq]; simp [dget, hv, hw]

/-- C1 witness: with name absent and query a mapping holding Bob, the
resolved name is Bob. -/
theorem name_resolution_precedence_witness :
    queryOK [("query", PyVal.dict [("name", PyVal.str "Bob")])] ∧
    resolveName [("query", PyVal.dict [("name", PyVal.str "Bob")])]
      = .ok (.str "Bob") := by
  refine ⟨Or.inr ⟨[("name", PyVal.str "Bob")], rfl⟩, ?_⟩
  exact (name_resolution_precedence [("query", PyVal.dict [("name", PyVal.str "Bob")])]
    (Or.inr ⟨[("name", PyVal.str "Bob")], rfl⟩)).2.1 rfl _ _ rfl rfl

/-- C2 counterexample: the claim says the handler never raises for any
string-keyed mapping, including an oddly typed query field, but on the
input where query is the string x the handler raises AttributeError
instead of returning an InvocationResult. -/
theorem handler_total_cex :
    main "2024-01-01T00:00:00" [("query", PyVal.str "x")]
      = .error (.attributeError "str" "get") := rfl

/-- C2 (amended): for every input mapping in which the query key, when
present, is bound to a mapping, the handler returns a well-formed
InvocationResult and does not raise; absence of expected fields is
handled by defaults. -/
theorem handler_total (now : String) (args : List (String × PyVal)) (h : queryOK args) :
    ∃ r, main now args = .ok r := by
  obtain ⟨v, hn⟩ := resolveName_ok h
  by_cases hg : resolveMethod args = .str "GET"
  · exact ⟨_, main_ok_GET hn hg⟩
  · by_cases hp : resolveMethod args = .str "POST"
    · exact ⟨_, main_ok_POST hn hp⟩
    · exact ⟨_, main_ok_else hn rfl hg hp⟩

/-- C2 witness: the empty input satisfies the proviso and yields a
result. -/
theorem handler_total_witness :
    queryOK [] ∧ ∃ r, main "T" [] = .ok r :=
  ⟨Or.inl rfl, handler_total "T" [] (Or.inl rfl)⟩

lemma str_ne_of_ne {s t : String} (h : s ≠ t) : PyVal.str s ≠ PyVal.str t :=
  fun hh => h (by injection hh)

/-- The result the handler returns for the input with name Ada at
timestamp T. -/
def rAda : InvocationResult :=
  ⟨200, jsonHeaders,
    .dict [("message", .str "Hello, Ada!"), ("timestamp", .str "T"),
           ("method", .str "GET"), ("path", .str "/"), ("language", .str "Python")]⟩

/-- C3: whenever the resolved method is GET, the returned result has
status 200, the greeting message built from the resolved name, language
Python, and the resolved method and path echoed in the body. -/
theorem get_branch (now : String) (args : List (String × PyVal)) (v : PyVal)
    (r : InvocationResult) (hn : resolveName args = .ok v)
    (hm : resolveMethod args = .str "GET") (h : main now args = .ok r) :
    r.statusCode = 200 ∧
    bodyLookup r "message" = some (.str ("Hello, " ++ pyStr v ++ "!")) ∧
    bodyLookup r "language" = some (.str "Python") ∧
    bodyLookup r "method" = some (resolveMethod args) ∧
    bodyLookup r "path" = some (resolvePath args) := by
  rw [main_ok_GET hn hm] at h
  cases h
  exact ⟨rfl, rfl, rfl, rfl, rfl⟩

/-- C3 witness: input with name Ada yields the 200 greeting record. -/
theorem get_branch_witness :
    main "T" [("name", PyVal.str "Ada")] = .ok rAda ∧
    (rAda.statusCode = 200 ∧
     bodyLookup rAda "message" = some (.str ("Hello, " ++ pyStr (PyVal.str "Ada") ++ "!")) ∧
     bodyLookup rAda "language" = some (.str "Python") ∧
     bodyLookup rAda "method" = some (resolveMethod [("name", PyVal.str "Ada")]) ∧
     bodyLookup rAda "path" = some (resolvePath [("name", PyVal.str "Ada")])) :=
  ⟨rfl, get_branch "T" [("name", PyVal.str "Ada")] (.str "Ada") rAda rfl rfl rfl⟩

/-- C4: whenever the resolved method is POST, the returned result has
status 200 and receivedData is the value of the body key when present,
and otherwise the entire input mapping itself. -/
theorem post_branch (now : String) (args : List (String × PyVal))
    (r : InvocationResult) (hm : resolveMethod args = .str "POST")
    (h : main now args = .ok r) :
    r.statusCode = 200 ∧
    (∀ v, args.lookup "body" = some v → bodyLookup r "receivedData" = some v) ∧
    (args.lookup "body" = Option.none → bodyLookup r "receivedData" = some (.dict args)) := by
  obtain ⟨w, hn⟩ := main_ok_name h
  rw [main_ok_POST hn hm] at h
  cases h
  refine ⟨rfl, ?_, ?_⟩
  · intro v hv
    show some (dget args "body" (PyVal.dict args)) = some v
    simp [dget, hv]
  · intro hv
    show some (dget args "body" (PyVal.dict args)) = some (PyVal.dict args)
    simp [dget, hv]

/-- The result the handler returns for a POST carrying the body 1 at
timestamp T. -/
def rPost : InvocationResult :=
  ⟨200, jsonHeaders,
    .dict [("message", .str "Data received successfully"),
           ("receivedData", .int 1), ("timestamp", .str "T")]⟩

/-- C4 witness: a POST input with body 1 echoes the 1 back. -/
theorem post_branch_witness :
    main "T" [("__ow_method", PyVal.str "POST"), ("body", PyVal.int 1)] = .ok rPost ∧
    (rPost.statusCode = 200 ∧
     (∀ v, [("__ow_method", PyVal.str "POST"), ("body", PyVal.int 1)].lookup "body" = some v →
        bodyLookup rPost "receivedData" = some v) ∧
     ([("__ow_method", PyVal.str "POST"), ("body", PyVal.int 1)].lookup "body" = Option.none →
        bodyLookup rPost "receivedData"
          = some (.dict [("__ow_method", PyVal.str "POST"), ("body", PyVal.int 1)]))) :=
  ⟨rfl, post_branch "T" [("__ow_method", PyVal.str "POST"), ("body", PyVal.int 1)]
    rPost rfl rfl⟩

/-- C5: whenever the input raises no AttributeError on line 10 and its
resolved method is neither GET nor POST, the handler returns a normal
result with status 405, the allowed-methods list, and an error string
embedding the method; it does not raise. -/
theorem method_not_allowed (now : String) (args : List (String × PyVal))
    (hqk : queryOK args) (hg : resolveMethod args ≠ .str "GET")
    (hp : resolveMethod args ≠ .str "POST") :
    ∃ r, main now args = .ok r ∧ r.statusCode = 405 ∧
      bodyLookup r "allowedMethods" = some (.list [.str "GET", .str "POST"]) ∧
      bodyLookup r "error"
        = some (.str ("Method " ++ pyStr (resolveMethod args) ++ " not allowed")) := by
  obtain ⟨v, hn⟩ := resolveName_ok hqk
  exact ⟨result405 (resolveMethod args), main_ok_else hn rfl hg hp, rfl, rfl, rfl⟩

/-- C5 witness: a DELETE input yields the 405 record. -/
theorem method_not_allowed_witness :
    queryOK [("__ow_method", PyVal.str "DELETE")] ∧
    ∃ r, main "T" [("__ow_method", PyVal.str "DELETE")] = .ok r ∧ r.statusCode = 405 ∧
      bodyLookup r "allowedMethods" = some (.list [.str "GET", .str "POST"]) ∧
      bodyLookup r "error"
        = some (.str ("Method "
            ++ pyStr (resolveMethod [("__ow_method", PyVal.str "DELETE")]) ++ " not allowed")) :=
  ⟨Or.inl rfl,
   method_not_allowed "T" [("__ow_method", PyVal.str "DELETE")] (Or.inl rfl)
     (str_ne_of_ne (by decide)) (str_ne_of_ne (by decide))⟩

/-- C6: every returned result carries exactly the JSON content-type
header and the CORS allow-all header, on all three branches. -/
theorem headers_exact (now : String) (args : List (String × PyVal))
    (r : InvocationResult) (h : main now args = .ok r) :
    r.headers = [("Content-Type", "application/json"),
                 ("Access-Control-Allow-Origin", "*")] := by
  obtain ⟨v, hn⟩ := main_ok_name h
  by_cases hg : resolveMethod args = .str "GET"
  · rw [main_ok_GET hn hg] at h; cases h; rfl
  · by_cases hp : resolveMethod args = .str "POST"
    · rw [main_ok_POST hn hp] at h; cases h; rfl
    · rw [main_ok_else hn rfl hg hp] at h; cases h; rfl

/-- The result the handler returns for the empty input at timestamp T. -/
def rWorld : InvocationResult :=
  ⟨200, jsonHeaders,
    .dict [("message", .str "Hello, World!"), ("timestamp", .str "T"),
           ("method", .str "GET"), ("path", .str "/"), ("language", .str "Python")]⟩

/-- C6 witness: the empty input's result carries exactly the two
headers. -/
theorem headers_exact_witness :
    rWorld.headers = [("Content-Type", "application/json"),
                      ("Access-Control-Allow-Origin", "*")] :=
  headers_exact "T" [] rWorld rfl

/-- C7: the method resolves to the value under __ow_method, defaulting
to GET when absent; the path resolves to the value under __ow_path,
defaulting to /; and the empty input takes the GET branch with status
200 and message Hello, World!. -/
theorem method_path_defaults :
    (∀ args : List (String × PyVal), args.lookup "__ow_method" = Option.none →
       resolveMethod args = .str "GET") ∧
    (∀ (args : List (String × PyVal)) (v : PyVal), args.lookup "__ow_method" = some v →
       resolveMethod args = v) ∧
    (∀ args : List (String × PyVal), args.lookup "__ow_path" = Option.none →
       resolvePath args = .str "/") ∧
    (∀ (args : List (String × PyVal)) (v : PyVal), args.lookup "__ow_path" = some v →
       resolvePath args = v) ∧
    (∀ now : String, main now [] = .ok ⟨200, jsonHeaders,
       .dict [("message", .str "Hello, World!"), ("timestamp", .str now),
              ("method", .str "GET"), ("path", .str "/"),
              ("language", .str "Python")]⟩) := by
  refine ⟨?_, ?_, ?_, ?_, fun now => rfl⟩
  · intro args h; simp [resolveMethod, dget, h]
  · intro args v h; simp [resolveMethod, dget, h]
  · intro args h; simp [resolvePath, dget, h]
  · intro args v h; simp [resolvePath, dget, h]

/-- C7 witness: the empty input resolves method GET, path /, and yields
the Hello, World! record. -/
theorem method_path_defaults_witness :
    resolveMethod [] = .str "GET" ∧ resolvePath [] = .str "/" ∧
    main "T" [] = .ok rWorld :=
  ⟨method_path_defaults.1 [] rfl, method_path_defaults.2.2.1 [] rfl,
   method_path_defaults.2.2.2.2 "T"⟩

/-- C8: when the query key is present with a non-dict value, line 10
evaluates its default argument eagerly and the handler raises
AttributeError instead of returning, even when the name key is present. -/
theorem query_nondict_raises (now : String) (args : List (String × PyVal))
    (v : PyVal) (hq : args.lookup "query" = some v)
    (hnd : ∀ q, v ≠ PyVal.dict q) :
    main now args = .error (.attributeError (pyType v) "get") := by
  have hdg : dget args "query" (.dict []) = v := by simp [dget, hq]
  have hres : resolveName args = .error (.attributeError (pyType v) "get") := by
    unfold resolveName
    rw [hdg]
    cases v <;> first | rfl | exact absurd rfl (hnd _)
  exact main_error hres

/-- C8 witness: with name Ada present and query the string x, the
handler raises AttributeError on the str type. -/
theorem query_nondict_raises_witness :
    [("name", PyVal.str "Ada"), ("query", PyVal.str "x")].lookup "query"
      = some (PyVal.str "x") ∧
    main "T" [("name", PyVal.str "Ada"), ("query", PyVal.str "x")]
      = .error (.attributeError (pyType (PyVal.str "x")) "get") :=
  ⟨rfl, query_nondict_raises "T" [("name", PyVal.str "Ada"), ("query", PyVal.str "x")]
    (PyVal.str "x") rfl (fun _ h => nomatch h)⟩

lemma main_ok_405_eq {now : String} {args : List (String × PyVal)} {m : PyVal}
    {r : InvocationResult} (hm : args.lookup "__ow_method" = some m)
    (hg : m ≠ .str "GET") (hp : m ≠ .str "POST") (h : main now args = .ok r) :
    r = result405 m := by
  obtain ⟨v, hn⟩ := main_ok_name h
  have hres : resolveMethod args = m := by simp [resolveMethod, dget, hm]
  rw [main_ok_else hn hres hg hp] at h
  cases h
  rfl

/-- C9: dispatch compares the method by exact string equality, so any
method string differing from GET and POST in any character, case
included, lands in the 405 branch. -/
theorem method_case_sensitive (now : String) (args : List (String × PyVal))
    (r : InvocationResult) (s : String)
    (hm : args.lookup "__ow_method" = some (.str s))
    (hg : s ≠ "GET") (hp : s ≠ "POST") (h : main now args = .ok r) :
    r.statusCode = 405 := by
  rw [main_ok_405_eq hm (str_ne_of_ne hg) (str_ne_of_ne hp) h]
  rfl

/-- The 405 result for the lowercase method string get. -/
def r405get : InvocationResult :=
  ⟨405, jsonHeaders,
    .dict [("error", .str "Method get not allowed"),
           ("allowedMethods", .list [.str "GET", .str "POST"])]⟩

/-- C9 witness: the lowercase method get takes the 405 branch, not the
GET branch. -/
theorem method_case_sensitive_witness :
    main "T" [("__ow_method", PyVal.str "get")] = .ok r405get ∧
    r405get.statusCode = 405 :=
  ⟨rfl, method_case_sensitive "T" [("__ow_method", PyVal.str "get")] r405get "get"
    rfl (by decide) (by decide) rfl⟩

/-- C10: the 405 outcome depends only on the method string: two inputs
with the same __ow_method value, neither GET nor POST, produce
identical results, whatever their other fields and whatever the clock
says. -/
theorem not_allowed_deterministic (now₁ now₂ : String)
    (args₁ args₂ : List (String × PyVal)) (m : PyVal) (r₁ r₂ : InvocationResult)
    (h₁ : args₁.lookup "__ow_method" = some m)
    (h₂ : args₂.lookup "__ow_method" = some m)
    (hg : m ≠ .str "GET") (hp : m ≠ .str "POST")
    (k₁ : main now₁ args₁ = .ok r₁) (k₂ : main now₂ args₂ = .ok r₂) :
    r₁ = r₂ := by
  rw [main_ok_405_eq h₁ hg hp k₁, main_ok_405_eq h₂ hg hp k₂]

/-- The 405 result for the method string DELETE. -/
def rDel : InvocationResult :=
  ⟨405, jsonHeaders,
    .dict [("error", .str "Method DELETE not allowed"),
           ("allowedMethods", .list [.str "GET", .str "POST"])]⟩

/-- C10 witness: two DELETE inputs differing in every other field and
in timestamp produce the same record. -/
theorem not_allowed_deterministic_witness :
    main "T1" [("__ow_method", PyVal.str "DELETE"), ("name", PyVal.str "A")]
      = .ok rDel ∧
    main "T2" [("__ow_method", PyVal.str "DELETE"), ("body", PyVal.int 7),
               ("__ow_path", PyVal.str "/z")] = .ok rDel ∧
    rDel = rDel :=
  ⟨rfl, rfl,
   not_allowed_deterministic "T1" "T2"
     [("__ow_method", PyVal.str "DELETE"), ("name", PyVal.str "A")]
     [("__ow_method", PyVal.str "DELETE"), ("body", PyVal.int 7),
      ("__ow_path", PyVal.str "/z")]
     (PyVal.str "DELETE") rDel rDel rfl rfl
     (str_ne_of_ne (by decide)) (str_ne_of_ne (by decide)) rfl rfl⟩

end Handler
